import Mathlib

/-!
Materials estimator of `script.js`

A shallow embedding of the quantity estimator of `src/script.js`
(`calculateMaterials`, `validateAllInputs`, `calculateLosa`, `calculateMuro`,
`calculateFirme`, `calculateColumna`) together with the ECMAScript Number
primitives those functions call: `*`, `/`, `<=`, `isNaN`, `Math.ceil`,
`Number.prototype.toFixed`, `ToString` applied to a Number, and `parseFloat`.

ECMAScript Numbers are IEEE-754 binary64 values.  Every finite binary64 value
is an integer multiple of `2^(-1074)`, so a finite Number is kept as a sign and
a magnitude counted in units of `2^(-1074)`; all arithmetic is exact integer
arithmetic followed by one round-to-nearest, ties-to-even step, exactly as
IEEE-754 prescribes.
-/

namespace Materiales

/-! ## ECMAScript Numbers -/

/-- The number of `2^(-1074)` units in the value one. -/
def scale : Nat := 2 ^ 1074

/-- The magnitude `2^1024` in units: the first magnitude that is no longer finite. -/
def overflowBound : Nat := 2 ^ 2098

/-- An ECMAScript Number: `NaN`, a signed infinity, or a signed finite value whose
magnitude is `mag * 2^(-1074)` (`fin true 0` is negative zero). -/
inductive JSNum where
  | nan : JSNum
  | inf (neg : Bool) : JSNum
  | fin (neg : Bool) (mag : Nat) : JSNum
  deriving DecidableEq, Repr

/-- The quotient `n / d` rounded to the nearest integer, ties to the even one. -/
def roundHalfEven (n d : Nat) : Nat :=
  if 2 * (n % d) < d then n / d
  else if d < 2 * (n % d) then n / d + 1
  else if (n / d) % 2 = 0 then n / d
  else n / d + 1

/-- The number of halvings that bring `q` below `2^53`, with at most `fuel` of them. -/
def spacingExpAux : Nat → Nat → Nat
  | 0, _ => 0
  | fuel + 1, q => if q < 2 ^ 53 then 0 else spacingExpAux fuel (q / 2) + 1

/-- The binary exponent of the spacing of binary64 values around a magnitude of `q`
units: magnitudes below `2^53` units are spaced one unit apart, and the spacing
doubles with every further binade. -/
def spacingExp (q : Nat) : Nat := spacingExpAux q q

/-- The rational magnitude `n / d` (in units) rounded to the nearest magnitude with a
53-bit significand, ties to even, the exponent range being unbounded above. -/
def roundMag (n d : Nat) : Nat :=
  roundHalfEven n (d * 2 ^ spacingExp (n / d)) * 2 ^ spacingExp (n / d)

/-- The Number nearest to the signed rational `± n / d` units; magnitudes that round
to `2^1024` or more become an infinity. -/
def ofMag (neg : Bool) (n d : Nat) : JSNum :=
  if roundMag n d < overflowBound then .fin neg (roundMag n d) else .inf neg

/-- The Number denoted by the decimal literal `digits × 10^(-decimals)`, e.g.
`lit 105 2` for the source text `1.05`. -/
def lit (digits decimals : Nat) : JSNum :=
  ofMag false (digits * scale) (10 ^ decimals)

/-- ECMAScript `Number::multiply`. -/
def JSNum.mul : JSNum → JSNum → JSNum
  | .nan, _ => .nan
  | .inf _, .nan => .nan
  | .fin _ _, .nan => .nan
  | .inf s, .inf t => .inf (xor s t)
  | .inf s, .fin t n => if n = 0 then .nan else .inf (xor s t)
  | .fin s m, .inf t => if m = 0 then .nan else .inf (xor s t)
  | .fin s m, .fin t n => ofMag (xor s t) (m * n) scale

/-- ECMAScript `Number::divide`. -/
def JSNum.div : JSNum → JSNum → JSNum
  | .nan, _ => .nan
  | .inf _, .nan => .nan
  | .fin _ _, .nan => .nan
  | .inf _, .inf _ => .nan
  | .inf s, .fin t _ => .inf (xor s t)
  | .fin s _, .inf t => .fin (xor s t) 0
  | .fin s m, .fin t n =>
    if n = 0 then (if m = 0 then .nan else .inf (xor s t))
    else ofMag (xor s t) (m * scale) n

instance : Mul JSNum := ⟨JSNum.mul⟩
instance : Div JSNum := ⟨JSNum.div⟩

/-- The signed magnitude of a finite Number, in units. -/
def signedMag (neg : Bool) (mag : Nat) : Int :=
  if neg then -(mag : Int) else (mag : Int)

/-- ECMAScript `a <= b` on Numbers: false as soon as an operand is `NaN`, and the two
zeros compare equal. -/
def JSNum.le : JSNum → JSNum → Bool
  | .nan, _ => false
  | .inf _, .nan => false
  | .fin _ _, .nan => false
  | .inf true, .inf _ => true
  | .inf true, .fin _ _ => true
  | .inf false, .inf t => !t
  | .inf false, .fin _ _ => false
  | .fin _ _, .inf t => !t
  | .fin s m, .fin t n => decide (signedMag s m ≤ signedMag t n)

/-- ECMAScript `isNaN` on a Number. -/
def isNaN : JSNum → Bool
  | .nan => true
  | _ => false

/-- ECMAScript `Math.ceil`: the smallest integral Number not below the argument;
arguments in `(-1, 0)` give negative zero. -/
def Math.ceil : JSNum → JSNum
  | .fin false m => .fin false ((m + scale - 1) / scale * scale)
  | .fin true m => .fin true (m / scale * scale)
  | x => x

/-! ## Numbers to strings -/

/-- The decimal digits of a natural number (`"0"` for zero). -/
def natDigits (n : Nat) : List Char := (Nat.repr n).toList

/-- For a magnitude below one (and not zero): the number of zeros that follow the
decimal point before the first significant digit, searched upwards from `j`. -/
def leadingZeros : Nat → Nat → Nat → Nat
  | 0, _, j => j
  | fuel + 1, mag, j =>
    if scale ≤ mag * 10 ^ (j + 1) then j else leadingZeros fuel mag (j + 1)

/-- The integer `n` with `10^(n-1) ≤ x < 10^n` for the positive magnitude `x`. -/
def decExponent (mag : Nat) : Int :=
  if scale ≤ mag then ((natDigits (mag / scale)).length : Int)
  else -((leadingZeros 400 mag 0 : Nat) : Int)

/-- The binary64 magnitude nearest to `s × 10^e`. -/
def decimalToMag (s : Nat) (e : Int) : Nat :=
  if 0 ≤ e then roundMag (s * 10 ^ e.toNat * scale) 1
  else roundMag (s * scale) (10 ^ (-e).toNat)

/-- The integer part of `x / 10^e` for the magnitude `x`. -/
def scaledFloor (mag : Nat) (e : Int) : Nat :=
  if 0 ≤ e then mag / (scale * 10 ^ e.toNat) else mag * 10 ^ (-e).toNat / scale

/-- Whether `x` lies strictly nearer to `s × 10^e` than to `(s+1) × 10^e`
(`Ordering.lt`), strictly nearer to the latter (`gt`), or half-way (`eq`). -/
def nearerSide (mag : Nat) (s : Nat) (e : Int) : Ordering :=
  if 0 ≤ e then compare (2 * mag) ((2 * s + 1) * 10 ^ e.toNat * scale)
  else compare (2 * mag * 10 ^ (-e).toNat) ((2 * s + 1) * scale)

/-- The `k`-digit significand `s` for which `s × 10^(n-k)` reads back as the Number of
magnitude `mag`, if there is one; of two candidates the one nearer to the value,
and the even one on a tie. -/
def significandAt (mag : Nat) (n : Int) (k : Nat) : Option Nat :=
  let e := n - (k : Int)
  let lo := scaledFloor mag e
  let okLo := decide (decimalToMag lo e = mag)
  let okHi := decide (decimalToMag (lo + 1) e = mag)
  if okLo && okHi then
    match nearerSide mag lo e with
    | .lt => some lo
    | .gt => some (lo + 1)
    | .eq => if lo % 2 = 0 then some lo else some (lo + 1)
  else if okLo then some lo
  else if okHi then some (lo + 1)
  else none

/-- The shortest significand: the first digit count `k, k+1, ...` that admits one,
together with that count. -/
def shortestSignificand : Nat → Nat → Int → Nat → Nat × Nat
  | 0, mag, n, k => (scaledFloor mag (n - (k : Int)), k)
  | fuel + 1, mag, n, k =>
    match significandAt mag n k with
    | some s => (s, k)
    | none => shortestSignificand fuel mag n (k + 1)

/-- The text of `Number::toString` for the digits `ds` of the significand and the
decimal exponent `n` (the value is `0.ds × 10^n`). -/
def formatDecimal (ds : List Char) (n : Int) : List Char :=
  if (ds.length : Int) ≤ n ∧ n ≤ 21 then
    ds ++ List.replicate (n - (ds.length : Int)).toNat '0'
  else if 0 < n ∧ n ≤ 21 then
    ds.take n.toNat ++ '.' :: ds.drop n.toNat
  else if -6 < n ∧ n ≤ 0 then
    '0' :: '.' :: (List.replicate (-n).toNat '0' ++ ds)
  else
    match ds with
    | [] => []
    | [d] => d :: 'e' :: (if n - 1 < 0 then '-' else '+') :: natDigits (n - 1).natAbs
    | d :: rest =>
      d :: '.' :: (rest ++ 'e' :: (if n - 1 < 0 then '-' else '+') :: natDigits (n - 1).natAbs)

/-- The text of `Number::toString` for a positive finite magnitude. -/
def magToChars (mag : Nat) : List Char :=
  let n := decExponent mag
  let (s, k) := shortestSignificand 17 mag n 1
  if s = 10 ^ k then formatDecimal ['1'] (n + 1) else formatDecimal (natDigits s) n

/-- ECMAScript `Number::toString(x, 10)`, which is what a template literal applies to a
Number. -/
def JSNum.toStr : JSNum → String
  | .nan => "NaN"
  | .inf false => "Infinity"
  | .inf true => "-Infinity"
  | .fin neg mag =>
    if mag = 0 then "0"
    else if neg then String.mk ('-' :: magToChars mag)
    else String.mk (magToChars mag)

/-- The integer `n` for which `n / 10^fd` is nearest to the magnitude, the larger one
when two are equally near: the floor of `x × 10^fd + 1/2`. -/
def fixedInteger (mag fd : Nat) : Nat :=
  (2 * mag * 10 ^ fd + scale) / (2 * scale)

/-- ECMAScript `Number.prototype.toFixed(fd)`: the integer `n` nearest to `x × 10^fd`
(the larger one on a tie) written with `fd` digits after the point; values of `10^21`
and above, and non-finite ones, are written as `ToString` writes them. -/
def JSNum.toFixed (x : JSNum) (fd : Nat) : String :=
  match x with
  | .fin neg mag =>
    let s : List Char := if neg && mag != 0 then ['-'] else []
    if 10 ^ 21 * scale ≤ mag then String.mk (s ++ (JSNum.fin false mag).toStr.toList)
    else
      let m := natDigits (fixedInteger mag fd)
      if fd = 0 then String.mk (s ++ m)
      else
        let m := List.replicate (fd + 1 - m.length) '0' ++ m
        String.mk (s ++ (m.take (m.length - fd) ++ '.' :: m.drop (m.length - fd)))
  | x => x.toStr

/-! ## Strings to numbers -/

/-- The code points `TrimString` removes: ECMAScript `WhiteSpace` and `LineTerminator`. -/
def isStrWhiteSpace (c : Char) : Bool :=
  c.toNat ∈ [0x09, 0x0A, 0x0B, 0x0C, 0x0D, 0x20, 0xA0, 0x1680, 0x2028, 0x2029, 0x202F,
    0x205F, 0x3000, 0xFEFF] || (0x2000 ≤ c.toNat && c.toNat ≤ 0x200A)

/-- The value of a run of decimal digits. -/
def digitsValue (ds : List Char) : Nat :=
  ds.foldl (fun a c => 10 * a + (c.toNat - 48)) 0

/-- The exponent denoted by an `ExponentPart` at the head of the text, or zero when the
text does not start with a complete one. -/
def parseExponent : List Char → Int
  | c :: rest =>
    if c = 'e' ∨ c = 'E' then
      match rest with
      | '+' :: ds => ((digitsValue (ds.takeWhile Char.isDigit) : Nat) : Int)
      | '-' :: ds => -((digitsValue (ds.takeWhile Char.isDigit) : Nat) : Int)
      | ds => ((digitsValue (ds.takeWhile Char.isDigit) : Nat) : Int)
    else 0
  | [] => 0

/-- The value of the longest prefix of the text that is a `StrUnsignedDecimalLiteral`,
with the sign `neg`; `NaN` when no prefix is one. -/
def parseUnsigned (neg : Bool) (cs : List Char) : JSNum :=
  match cs with
  | 'I' :: 'n' :: 'f' :: 'i' :: 'n' :: 'i' :: 't' :: 'y' :: _ => .inf neg
  | _ =>
    let ip := cs.takeWhile Char.isDigit
    let r1 := cs.dropWhile Char.isDigit
    let fp := match r1 with
      | '.' :: r => r.takeWhile Char.isDigit
      | _ => []
    let r2 := match r1 with
      | '.' :: r => r.dropWhile Char.isDigit
      | _ => r1
    if ip = [] ∧ fp = [] then .nan
    else
      let e := parseExponent r2 - (fp.length : Int)
      if 0 ≤ e then ofMag neg (digitsValue (ip ++ fp) * 10 ^ e.toNat * scale) 1
      else ofMag neg (digitsValue (ip ++ fp) * scale) (10 ^ (-e).toNat)

/-- ECMAScript `parseFloat` applied to a String. -/
def parseFloat (s : String) : JSNum :=
  match s.toList.dropWhile isStrWhiteSpace with
  | '-' :: cs => parseUnsigned true cs
  | '+' :: cs => parseUnsigned false cs
  | cs => parseUnsigned false cs

/-! ## The estimator of `script.js` -/

/-- The object a calculator returns: material labels with their formatted quantities, in
the insertion order of the object literal (none of the labels is an array index, so that
is the order `Object.entries` enumerates). -/
abbrev Materials := List (String × String)

/-- `calculateLosa`: materials for a concrete slab. -/
def calculateLosa (length width height : JSNum) : Materials :=
  let volume := length * width * height
  let area := length * width
  let concreteRatio := lit 105 2
  let cementBags := volume * lit 65 1
  let sandM3 := volume * lit 5 1
  let gravelM3 := volume * lit 7 1
  let steelKg := area * lit 8 0
  let armexM2 := area * lit 11 1
  [ ("Concreto", (volume * concreteRatio).toFixed 2 ++ " m³"),
    ("Cemento", (Math.ceil cementBags).toStr ++ " sacos"),
    ("Arena", sandM3.toFixed 2 ++ " m³"),
    ("Grava", gravelM3.toFixed 2 ++ " m³"),
    ("Varilla", steelKg.toFixed 0 ++ " kg"),
    ("Armex", armexM2.toFixed 2 ++ " m²") ]

/-- `calculateMuro`: materials for a block wall.  The parameter `width` is not used. -/
def calculateMuro (length _width height : JSNum) : Materials :=
  let area := length * height
  let blocks := Math.ceil (area * lit 13 0)
  let mortarM3 := area * lit 2 2
  let cementBags := Math.ceil (mortarM3 * lit 8 0)
  let sandM3 := mortarM3 * lit 4 0
  let steelKg := (length / lit 3 0) * height * lit 4 0
  [ ("Blocks", blocks.toStr ++ " piezas"),
    ("Cemento", cementBags.toStr ++ " sacos"),
    ("Arena", sandM3.toFixed 2 ++ " m³"),
    ("Varilla", steelKg.toFixed 0 ++ " kg"),
    ("Alambre recocido", (Math.ceil (blocks / lit 50 0)).toStr ++ " kg") ]

/-- `calculateFirme`: materials for a concrete floor. -/
def calculateFirme (length width height : JSNum) : Materials :=
  let volume := length * width * height
  let area := length * width
  let concreteRatio := lit 105 2
  let cementBags := volume * lit 55 1
  let sandM3 := volume * lit 6 1
  let gravelM3 := volume * lit 8 1
  [ ("Concreto", (volume * concreteRatio).toFixed 2 ++ " m³"),
    ("Cemento", (Math.ceil cementBags).toStr ++ " sacos"),
    ("Arena", sandM3.toFixed 2 ++ " m³"),
    ("Grava", gravelM3.toFixed 2 ++ " m³"),
    ("Polietileno", (area * lit 11 1).toFixed 2 ++ " m²") ]

/-- `calculateColumna`: materials for a column. -/
def calculateColumna (length width height : JSNum) : Materials :=
  let volume := length * width * height
  let concreteRatio := lit 105 2
  let cementBags := volume * lit 7 0
  let sandM3 := volume * lit 45 2
  let gravelM3 := volume * lit 65 2
  let steelKg := volume * lit 120 0
  let stirrupsKg := height * lit 2 0
  [ ("Concreto", (volume * concreteRatio).toFixed 2 ++ " m³"),
    ("Cemento", (Math.ceil cementBags).toStr ++ " sacos"),
    ("Arena", sandM3.toFixed 2 ++ " m³"),
    ("Grava", gravelM3.toFixed 2 ++ " m³"),
    ("Varilla longitudinal", steelKg.toFixed 0 ++ " kg"),
    ("Estribos", stirrupsKg.toFixed 0 ++ " kg"),
    ("Alambre recocido", (Math.ceil (steelKg / lit 100 0)).toStr ++ " kg") ]

/-- The part of the page the calculator reads: the `value` of the elements
`#project-type`, `#length`, `#width` and `#height`. -/
structure Form where
  projectType : String
  length : String
  width : String
  height : String
  deriving DecidableEq, Repr

/-- What `calculateMaterials` ends with: a call of `showError` or a call of
`displayResults`. -/
inductive Outcome where
  | showError (message : String) : Outcome
  | displayResults (materials : Materials) : Outcome
  deriving DecidableEq, Repr

/-- The test both validators apply to the `value` of an input:
`!input.value || value <= 0 || isNaN(value)` with `value = parseFloat(input.value)`. -/
def inputRejected (value : String) : Bool :=
  value.isEmpty || (parseFloat value).le (lit 0 0) || isNaN (parseFloat value)

/-- `validateAllInputs`: visits `#length`, `#width` and `#height`; the first component
records for each of them whether its form group ends up with the class `error`, the
second is the returned `isValid`. -/
def validateAllInputs (form : Form) : List Bool × Bool :=
  [form.length, form.width, form.height].foldl
    (fun acc value =>
      if inputRejected value then (acc.1 ++ [true], false) else (acc.1 ++ [false], acc.2))
    ([], true)

/-- The message shown when validation fails. -/
def invalidInputMessage : String := "Por favor, completa todos los campos correctamente."

/-- The message shown by the `default` branch of the `switch`. -/
def unknownTypeMessage : String := "Tipo de proyecto no válido."

/-- The result of running `calculateMaterials` on a page: the error marks left on the
three form groups and the final call. -/
structure Run where
  errorMarks : List Bool
  outcome : Outcome
  deriving DecidableEq, Repr

/-- `calculateMaterials`: read the form, validate, dispatch on the project type. -/
def calculateMaterials (form : Form) : Run :=
  let projectType := form.projectType
  let length := parseFloat form.length
  let width := parseFloat form.width
  let height := parseFloat form.height
  let validation := validateAllInputs form
  if !validation.2 then ⟨validation.1, .showError invalidInputMessage⟩
  else if projectType = "losa" then
    ⟨validation.1, .displayResults (calculateLosa length width height)⟩
  else if projectType = "muro" then
    ⟨validation.1, .displayResults (calculateMuro length width height)⟩
  else if projectType = "firme" then
    ⟨validation.1, .displayResults (calculateFirme length width height)⟩
  else if projectType = "columna" then
    ⟨validation.1, .displayResults (calculateColumna length width height)⟩
  else ⟨validation.1, .showError unknownTypeMessage⟩

/-! ## Vocabulary of the specification -/

/-- A positive real dimension: a finite Number greater than zero. -/
def JSNum.isPositive : JSNum → Bool
  | .fin false m => decide (0 < m)
  | _ => false

/-- A Number that is finite and not negative, or positive infinity. -/
def JSNum.isNonNeg : JSNum → Bool
  | .fin false _ => true
  | .inf false => true
  | _ => false

/-- A dimension the specification calls invalid: the field is empty, or its text reads
as `NaN`, as a zero of either sign, or as a negative Number (negative infinity
included). -/
def dimensionInvalid (value : String) : Prop :=
  value = "" ∨ parseFloat value = .nan ∨ (∃ s, parseFloat value = .fin s 0) ∨
    (∃ m, 0 < m ∧ parseFloat value = .fin true m) ∨ parseFloat value = .inf true

/-- Exact arithmetic: the decimal text of the non-negative rational `q` rounded to `fd`
decimals, a tie going upward, written with exactly `fd` digits after the point. -/
def exactFixed (q : ℚ) (fd : Nat) : String :=
  let m := natDigits ⌊q * 10 ^ fd + 1 / 2⌋.toNat
  if fd = 0 then String.mk m
  else
    let m := List.replicate (fd + 1 - m.length) '0' ++ m
    String.mk (m.take (m.length - fd) ++ '.' :: m.drop (m.length - fd))

/-- Exact arithmetic: the decimal text of the ceiling of the non-negative rational `q`. -/
def exactCeil (q : ℚ) : String := String.mk (natDigits ⌈q⌉.toNat)

/-- The slab row of the specification's table read on the numbers themselves: every
product, ceiling and rounding is exact. -/
def exactLosa (length width height : ℚ) : Materials :=
  let volume := length * width * height
  let area := length * width
  [ ("Concreto", exactFixed (volume * 1.05) 2 ++ " m³"),
    ("Cemento", exactCeil (volume * 6.5) ++ " sacos"),
    ("Arena", exactFixed (volume * 0.5) 2 ++ " m³"),
    ("Grava", exactFixed (volume * 0.7) 2 ++ " m³"),
    ("Varilla", exactFixed (area * 8) 0 ++ " kg"),
    ("Armex", exactFixed (area * 1.1) 2 ++ " m²") ]

/-- The wall row of the specification's table read on the numbers themselves; the
tie-wire is taken from the ceiled block count. -/
def exactMuro (length _width height : ℚ) : Materials :=
  let area := length * height
  let blocks : ℚ := ⌈area * 13⌉
  let mortarM3 := area * 0.02
  [ ("Blocks", exactCeil (area * 13) ++ " piezas"),
    ("Cemento", exactCeil (mortarM3 * 8) ++ " sacos"),
    ("Arena", exactFixed (mortarM3 * 4) 2 ++ " m³"),
    ("Varilla", exactFixed (length / 3 * height * 4) 0 ++ " kg"),
    ("Alambre recocido", exactCeil (blocks / 50) ++ " kg") ]

/-- The floor row of the specification's table read on the numbers themselves. -/
def exactFirme (length width height : ℚ) : Materials :=
  let volume := length * width * height
  let area := length * width
  [ ("Concreto", exactFixed (volume * 1.05) 2 ++ " m³"),
    ("Cemento", exactCeil (volume * 5.5) ++ " sacos"),
    ("Arena", exactFixed (volume * 0.6) 2 ++ " m³"),
    ("Grava", exactFixed (volume * 0.8) 2 ++ " m³"),
    ("Polietileno", exactFixed (area * 1.1) 2 ++ " m²") ]

/-- The column row of the specification's table read on the numbers themselves; the
tie-wire is taken from the unrounded longitudinal steel. -/
def exactColumna (length width height : ℚ) : Materials :=
  let volume := length * width * height
  [ ("Concreto", exactFixed (volume * 1.05) 2 ++ " m³"),
    ("Cemento", exactCeil (volume * 7) ++ " sacos"),
    ("Arena", exactFixed (volume * 0.45) 2 ++ " m³"),
    ("Grava", exactFixed (volume * 0.65) 2 ++ " m³"),
    ("Varilla longitudinal", exactFixed (volume * 120) 0 ++ " kg"),
    ("Estribos", exactFixed (height * 2) 0 ++ " kg"),
    ("Alambre recocido", exactCeil (volume * 120 / 100) ++ " kg") ]

/-- The four selectors the `switch` of `calculateMaterials` recognises. -/
def recognizedTypes : List String := ["losa", "muro", "firme", "columna"]

/-- The label sequence the specification fixes for each project type. -/
def labelsOf (projectType : String) : List String :=
  if projectType = "losa" then
    ["Concreto", "Cemento", "Arena", "Grava", "Varilla", "Armex"]
  else if projectType = "muro" then
    ["Blocks", "Cemento", "Arena", "Varilla", "Alambre recocido"]
  else if projectType = "firme" then
    ["Concreto", "Cemento", "Arena", "Grava", "Polietileno"]
  else if projectType = "columna" then
    ["Concreto", "Cemento", "Arena", "Grava", "Varilla longitudinal", "Estribos",
      "Alambre recocido"]
  else []

/-! ## Rounding is monotone and nearest -/

theorem roundHalfEven_ge (n d : Nat) : n / d ≤ roundHalfEven n d := by
  unfold roundHalfEven
  split_ifs <;> omega

theorem roundHalfEven_le (n d : Nat) : roundHalfEven n d ≤ n / d + 1 := by
  unfold roundHalfEven
  split_ifs <;> omega

theorem roundHalfEven_mono {n₁ n₂ d : Nat} (h : n₁ ≤ n₂) :
    roundHalfEven n₁ d ≤ roundHalfEven n₂ d := by
  have hq : n₁ / d ≤ n₂ / d := Nat.div_le_div_right h
  rcases Nat.lt_or_ge (n₁ / d) (n₂ / d) with hlt | hge
  · calc roundHalfEven n₁ d ≤ n₁ / d + 1 := roundHalfEven_le _ _
      _ ≤ n₂ / d := hlt
      _ ≤ roundHalfEven n₂ d := roundHalfEven_ge _ _
  · have heq : n₁ / d = n₂ / d := Nat.le_antisymm hq hge
    have e₁ := Nat.div_add_mod n₁ d
    have e₂ := Nat.div_add_mod n₂ d
    have hr : n₁ % d ≤ n₂ % d := by
      rw [heq] at e₁
      omega
    unfold roundHalfEven
    rw [heq]
    split_ifs <;> omega

/-- With enough fuel the halving count `k` brackets the magnitude: `q < 2^(k+53)`, and
`2^(k+52) ≤ q` when `k` is positive. -/
theorem spacingExpAux_spec (fuel : Nat) : ∀ q : Nat, q < 2 ^ (fuel + 53) →
    q < 2 ^ (spacingExpAux fuel q + 53) ∧
      (0 < spacingExpAux fuel q → 2 ^ (spacingExpAux fuel q + 52) ≤ q) := by
  induction fuel with
  | zero =>
    intro q hq
    simp only [spacingExpAux]
    exact ⟨hq, fun h => absurd h (Nat.lt_irrefl 0)⟩
  | succ fuel ih =>
    intro q hq
    unfold spacingExpAux
    by_cases hlt : q < 2 ^ 53
    · rw [if_pos hlt]
      exact ⟨hlt, fun h => absurd h (Nat.lt_irrefl 0)⟩
    · rw [if_neg hlt]
      have hhalf : q / 2 < 2 ^ (fuel + 53) := by
        have e : 2 ^ (fuel + 1 + 53) = 2 * 2 ^ (fuel + 53) := by
          rw [show fuel + 1 + 53 = (fuel + 53) + 1 from by omega, Nat.pow_succ, Nat.mul_comm]
        rw [e] at hq
        omega
      obtain ⟨hup, hlo⟩ := ih (q / 2) hhalf
      generalize spacingExpAux fuel (q / 2) = k at hup hlo
      have e₁ : 2 ^ (k + 1 + 53) = 2 * 2 ^ (k + 53) := by
        rw [show k + 1 + 53 = (k + 53) + 1 from by omega, Nat.pow_succ, Nat.mul_comm]
      have e₂ : 2 ^ (k + 1 + 52) = 2 * 2 ^ (k + 52) := by
        rw [show k + 1 + 52 = (k + 52) + 1 from by omega, Nat.pow_succ, Nat.mul_comm]
      refine ⟨by rw [e₁]; omega, fun _ => ?_⟩
      rcases Nat.eq_zero_or_pos k with hk | hk
      · subst hk
        exact Nat.le_of_not_lt hlt
      · have := hlo hk
        rw [e₂]
        omega

theorem spacingExp_spec (q : Nat) :
    q < 2 ^ (spacingExp q + 53) ∧ (0 < spacingExp q → 2 ^ (spacingExp q + 52) ≤ q) :=
  spacingExpAux_spec q q
    (Nat.lt_of_lt_of_le (Nat.lt_two_pow q) (Nat.pow_le_pow_right (by decide) (by omega)))

/-- A magnitude whose spacing exponent is below `k` lies below `2^(k+52)`. -/
theorem lt_of_spacingExp_lt {q k : Nat} (h : spacingExp q < k) : q < 2 ^ (k + 52) :=
  Nat.lt_of_lt_of_le (spacingExp_spec q).1 (Nat.pow_le_pow_right (by decide) (by omega))

/-- A magnitude with a positive spacing exponent `k` is at least `2^(k+52)`. -/
theorem le_of_spacingExp_pos {q : Nat} (h : 0 < spacingExp q) :
    2 ^ (spacingExp q + 52) ≤ q :=
  (spacingExp_spec q).2 h

theorem spacingExp_mono {q₁ q₂ : Nat} (h : q₁ ≤ q₂) : spacingExp q₁ ≤ spacingExp q₂ := by
  rcases Nat.lt_or_ge (spacingExp q₂) (spacingExp q₁) with hlt | hge
  · have h₁ := le_of_spacingExp_pos (q := q₁) (by omega)
    have h₂ := lt_of_spacingExp_lt hlt
    omega
  · exact hge

theorem roundMag_mono {n₁ n₂ d : Nat} (h : n₁ ≤ n₂) :
    roundMag n₁ d ≤ roundMag n₂ d := by
  have hq : n₁ / d ≤ n₂ / d := Nat.div_le_div_right h
  have hk := spacingExp_mono hq
  unfold roundMag
  rcases Nat.lt_or_ge (spacingExp (n₁ / d)) (spacingExp (n₂ / d)) with hlt | hge
  · -- the two quotients lie in different binades, separated by a power of two
    generalize hk₁ : spacingExp (n₁ / d) = k₁ at *
    generalize hk₂ : spacingExp (n₂ / d) = k₂ at *
    have hB₁ : n₁ / d < 2 ^ (k₂ + 52) := lt_of_spacingExp_lt (by rw [hk₁]; exact hlt)
    have hB₂ : 2 ^ (k₂ + 52) ≤ n₂ / d := by
      have := le_of_spacingExp_pos (q := n₂ / d) (by omega)
      rwa [hk₂] at this
    obtain ⟨B, hB⟩ : ∃ B, B = 2 ^ (k₂ + 52) := ⟨_, rfl⟩
    obtain ⟨P, hP⟩ : ∃ P, P = 2 ^ 52 := ⟨_, rfl⟩
    have hPle : 2 ^ 52 ≤ P := Nat.le_of_eq hP.symm
    have hsplit : B = 2 ^ (k₂ + 52 - k₁) * 2 ^ k₁ := by
      rw [hB, ← Nat.pow_add]; congr 1; omega
    have hsplit₂ : B = P * 2 ^ k₂ := by
      rw [hB, hP, ← Nat.pow_add, Nat.add_comm]
    rw [← hB] at hB₁ hB₂
    have hp₁ : 0 < 2 ^ k₁ := Nat.two_pow_pos _
    have hp₂ : 0 < 2 ^ k₂ := Nat.two_pow_pos _
    have hup : roundHalfEven n₁ (d * 2 ^ k₁) * 2 ^ k₁ ≤ B := by
      have h1 : n₁ / (d * 2 ^ k₁) < 2 ^ (k₂ + 52 - k₁) := by
        rw [← Nat.div_div_eq_div_mul]
        exact Nat.div_lt_of_lt_mul (by rw [Nat.mul_comm, ← hsplit]; exact hB₁)
      have h2 := roundHalfEven_le n₁ (d * 2 ^ k₁)
      rw [hsplit]
      exact Nat.mul_le_mul_right _ (by omega)
    have hlo : B ≤ roundHalfEven n₂ (d * 2 ^ k₂) * 2 ^ k₂ := by
      have h1 : P ≤ n₂ / (d * 2 ^ k₂) := by
        rw [← Nat.div_div_eq_div_mul]
        exact (Nat.le_div_iff_mul_le hp₂).2 (by rw [← hsplit₂]; exact hB₂)
      have h2 := roundHalfEven_ge n₂ (d * 2 ^ k₂)
      rw [hsplit₂]
      exact Nat.mul_le_mul_right _ (by omega)
    exact Nat.le_trans hup hlo
  · have heq : spacingExp (n₁ / d) = spacingExp (n₂ / d) := Nat.le_antisymm hk hge
    rw [heq]
    exact Nat.mul_le_mul_right _ (roundHalfEven_mono h)

theorem pos_of_eq_two_pow (k : Nat) (s : Nat) (h : s = 2 ^ k) : 0 < s := by
  subst h
  exact Nat.two_pow_pos k

theorem scale_pos : 0 < scale := pos_of_eq_two_pow 1074 scale rfl

/-- `roundHalfEven` returns a nearest integer: the result differs from the exact
quotient by at most one half. -/
theorem roundHalfEven_nearest (n d : Nat) (hd : 0 < d) :
    2 * (roundHalfEven n d * d) ≤ 2 * n + d ∧ 2 * n ≤ 2 * (roundHalfEven n d * d) + d := by
  have e := Nat.div_add_mod n d
  have hr := Nat.mod_lt n hd
  have hq : (n / d + 1) * d = d * (n / d) + d := by
    rw [Nat.add_mul, Nat.one_mul, Nat.mul_comm]
  have hq' : n / d * d = d * (n / d) := Nat.mul_comm _ _
  unfold roundHalfEven
  split_ifs <;> simp only [hq, hq'] <;> omega

/-- `roundMag` returns a multiple of the spacing `2^k` of its binade that lies within
half a spacing of the exact quotient `n / d`. -/
theorem roundMag_nearest (n d : Nat) (hd : 0 < d) :
    2 * (roundMag n d * d) ≤ 2 * n + d * 2 ^ spacingExp (n / d) ∧
    2 * n ≤ 2 * (roundMag n d * d) + d * 2 ^ spacingExp (n / d) := by
  have h := roundHalfEven_nearest n (d * 2 ^ spacingExp (n / d))
    (Nat.mul_pos hd (Nat.two_pow_pos _))
  have e : roundMag n d * d =
      roundHalfEven n (d * 2 ^ spacingExp (n / d)) * (d * 2 ^ spacingExp (n / d)) := by
    unfold roundMag
    rw [Nat.mul_assoc, Nat.mul_comm (2 ^ _) d]
  rw [e]
  exact h

/-- In the normal range (a quotient of at least `2^52` units, that is a value of at least
`2^(-1022)`) rounding changes a magnitude by at most the fraction `2^(-53)` of it. -/
theorem roundMag_relative_error (n d : Nat) (hd : 0 < d) (hn : 2 ^ 52 ≤ n / d) :
    2 ^ 53 * (roundMag n d * d) ≤ 2 ^ 53 * n + n ∧
    2 ^ 53 * n ≤ 2 ^ 53 * (roundMag n d * d) + n := by
  obtain ⟨h₁, h₂⟩ := roundMag_nearest n d hd
  have hspec := spacingExp_spec (n / d)
  generalize spacingExp (n / d) = k at h₁ h₂ hspec
  obtain ⟨P, hP⟩ : ∃ P, P = 2 ^ 52 := ⟨_, rfl⟩
  have hP53 : 2 ^ 53 = 2 * P := by rw [hP]; rfl
  rw [← hP] at hn
  have hbound : d * 2 ^ k * P ≤ n := by
    rcases Nat.eq_zero_or_pos k with hk | hk
    · subst hk
      have := (Nat.le_div_iff_mul_le hd).1 hn
      rw [Nat.pow_zero, Nat.mul_one, Nat.mul_comm]
      exact this
    · have h := hspec.2 hk
      rw [Nat.pow_add, ← hP] at h
      have := (Nat.le_div_iff_mul_le hd).1 h
      calc d * 2 ^ k * P = 2 ^ k * P * d := by
            rw [Nat.mul_comm d, Nat.mul_assoc, Nat.mul_comm d, ← Nat.mul_assoc]
        _ ≤ n := this
  rw [hP53]
  generalize roundMag n d * d = r at h₁ h₂
  generalize hD : d * 2 ^ k = D at h₁ h₂ hbound
  have e₁ : 2 * P * r = P * (2 * r) := by rw [Nat.mul_comm 2 P, Nat.mul_assoc]
  have e₂ : 2 * P * n = P * (2 * n) := by rw [Nat.mul_comm 2 P, Nat.mul_assoc]
  have m₁ : P * (2 * r) ≤ P * (2 * n + D) := Nat.mul_le_mul_left P h₁
  have m₂ : P * (2 * n) ≤ P * (2 * r + D) := Nat.mul_le_mul_left P h₂
  rw [Nat.mul_add] at m₁ m₂
  rw [Nat.mul_comm P D] at m₁ m₂
  rw [e₁, e₂]
  omega

/-- `Math.ceil` of a non-negative finite Number is the least whole number of units
`scale` that is not below it. -/
theorem ceil_spec (m : Nat) :
    ∃ k : Nat, Math.ceil (JSNum.fin false m) = JSNum.fin false (k * scale) ∧
      m ≤ k * scale ∧ k * scale < m + scale := by
  have hs : 0 < scale := scale_pos
  refine ⟨(m + scale - 1) / scale, rfl, ?_, ?_⟩
  · have e := Nat.div_add_mod (m + scale - 1) scale
    have hr := Nat.mod_lt (m + scale - 1) hs
    rw [Nat.mul_comm] at e
    omega
  · have e := Nat.div_mul_le_self (m + scale - 1) scale
    omega

/-- The integer `toFixed` writes is nearest to `x × 10^fd`: it differs from it by at
most one half, and by less than one half from above. -/
theorem fixedInteger_nearest (mag fd : Nat) :
    2 * (fixedInteger mag fd * scale) ≤ 2 * (mag * 10 ^ fd) + scale ∧
    2 * (mag * 10 ^ fd) < 2 * (fixedInteger mag fd * scale) + scale := by
  have hs : 0 < 2 * scale := Nat.mul_pos (by decide) scale_pos
  unfold fixedInteger
  rw [Nat.mul_assoc 2 mag]
  obtain ⟨N, hN⟩ : ∃ N, N = 2 * (mag * 10 ^ fd) + scale := ⟨_, rfl⟩
  rw [← hN]
  have e := Nat.div_add_mod N (2 * scale)
  have hr := Nat.mod_lt N hs
  have e' : 2 * scale * (N / (2 * scale)) = 2 * (N / (2 * scale) * scale) := by
    rw [Nat.mul_assoc, Nat.mul_comm scale]
  rw [e'] at e
  omega

/-- The significand of a rounded magnitude has at most 53 bits (`2^53` itself arises
when rounding carries into the next binade). -/
theorem roundMag_significand (n d : Nat) :
    ∃ m k : Nat, roundMag n d = m * 2 ^ k ∧ m ≤ 2 ^ 53 := by
  refine ⟨roundHalfEven n (d * 2 ^ spacingExp (n / d)), spacingExp (n / d), rfl, ?_⟩
  have h := (spacingExp_spec (n / d)).1
  have hle := roundHalfEven_le n (d * 2 ^ spacingExp (n / d))
  rw [← Nat.div_div_eq_div_mul] at hle
  have hlt : n / d / 2 ^ spacingExp (n / d) < 2 ^ 53 := by
    apply Nat.div_lt_of_lt_mul
    rw [← Nat.pow_add]
    exact h
  omega

/-! ## Order lemmas on Numbers -/

set_option maxRecDepth 100000

theorem mul_def (a b : JSNum) : a * b = JSNum.mul a b := rfl

theorem div_def (a b : JSNum) : a / b = JSNum.div a b := rfl

/-- The binary64 product of two non-negative finite Numbers is the exact product rounded
to a nearest binary64 value: its magnitude is `m * 2^k` units with a significand `m` of
at most 53 bits, normalised (`2^52 ≤ m`) unless `k = 0`, it lies within half a spacing
`2^k` of the exact product `a * b / scale` units, and it becomes Infinity from `2^1024`
on. -/
theorem mul_nearest (a b : Nat) :
    ∃ m k : Nat, m ≤ 2 ^ 53 ∧ (0 < k → 2 ^ 52 ≤ m) ∧
      2 * (m * 2 ^ k * scale) ≤ 2 * (a * b) + scale * 2 ^ k ∧
      2 * (a * b) ≤ 2 * (m * 2 ^ k * scale) + scale * 2 ^ k ∧
      JSNum.fin false a * JSNum.fin false b =
        if m * 2 ^ k < overflowBound then JSNum.fin false (m * 2 ^ k) else JSNum.inf false := by
  obtain ⟨h₁, h₂⟩ := roundMag_nearest (a * b) scale scale_pos
  obtain ⟨hup, hlo⟩ := spacingExp_spec (a * b / scale)
  have hle := roundHalfEven_le (a * b) (scale * 2 ^ spacingExp (a * b / scale))
  have hge := roundHalfEven_ge (a * b) (scale * 2 ^ spacingExp (a * b / scale))
  rw [← Nat.div_div_eq_div_mul] at hle hge
  rw [mul_def]
  simp only [JSNum.mul, Bool.xor_false]
  unfold ofMag
  unfold roundMag at h₁ h₂ ⊢
  generalize spacingExp (a * b / scale) = k at *
  generalize roundHalfEven (a * b) (scale * 2 ^ k) = m at *
  refine ⟨m, k, ?_, fun hk => ?_, h₁, h₂, rfl⟩
  · have hlt : a * b / scale / 2 ^ k < 2 ^ 53 := by
      apply Nat.div_lt_of_lt_mul
      rw [← Nat.pow_add]
      exact hup
    omega
  · have hq : 2 ^ 52 ≤ a * b / scale / 2 ^ k := by
      apply (Nat.le_div_iff_mul_le (Nat.two_pow_pos _)).2
      rw [← Nat.pow_add, Nat.add_comm 52 k]
      exact hlo hk
    omega

/-- Rounding a non-negative rational to a Number is monotone. -/
theorem ofMag_le_ofMag {n₁ n₂ : Nat} (d : Nat) (h : n₁ ≤ n₂) :
    (ofMag false n₁ d).le (ofMag false n₂ d) = true := by
  have hm := roundMag_mono (d := d) h
  unfold ofMag
  split_ifs with h₁ h₂ h₂
  · simp only [JSNum.le, signedMag, decide_eq_true_eq]
    simpa using hm
  · rfl
  · omega
  · rfl

theorem ofMag_nonNeg (n d : Nat) : (ofMag false n d).isNonNeg = true := by
  unfold ofMag
  split_ifs <;> rfl

theorem mul_nonNeg_of_positive {a b : JSNum} (ha : a.isNonNeg = true)
    (hb : b.isPositive = true) : (a * b).isNonNeg = true := by
  rw [mul_def]
  match a, b, ha, hb with
  | .fin false m, .fin false n, _, _ => exact ofMag_nonNeg _ _
  | .inf false, .fin false n, _, hb =>
    have hn : n ≠ 0 := by
      simp only [JSNum.isPositive, decide_eq_true_eq] at hb
      omega
    simp [JSNum.mul, hn, JSNum.isNonNeg]

theorem isNonNeg_of_isPositive {a : JSNum} (ha : a.isPositive = true) :
    a.isNonNeg = true := by
  match a, ha with
  | .fin false m, _ => rfl

/-- The volume of positive dimensions is a non-negative Number (possibly zero by
underflow, possibly infinite by overflow), never `NaN`. -/
theorem volume_nonNeg {l w h : JSNum} (hl : l.isPositive = true) (hw : w.isPositive = true)
    (hh : h.isPositive = true) : (l * w * h).isNonNeg = true :=
  mul_nonNeg_of_positive (mul_nonNeg_of_positive (isNonNeg_of_isPositive hl) hw) hh

/-- Multiplying a non-negative Number by a larger positive finite factor does not give
a smaller product. -/
theorem mul_le_mul_of_nonNeg {v : JSNum} {m₁ m₂ : Nat} (hv : v.isNonNeg = true)
    (h₁ : 0 < m₁) (h : m₁ ≤ m₂) :
    (v * JSNum.fin false m₁).le (v * JSNum.fin false m₂) = true := by
  rw [mul_def, mul_def]
  match v, hv with
  | .fin false m, _ =>
    exact ofMag_le_ofMag _ (Nat.mul_le_mul_left m h)
  | .inf false, _ =>
    have e₁ : m₁ ≠ 0 := by omega
    have e₂ : m₂ ≠ 0 := by omega
    simp [JSNum.mul, e₁, e₂, JSNum.le]

theorem mul_fin_nonNeg {v : JSNum} {m : Nat} (hv : v.isNonNeg = true) (hm : 0 < m) :
    (v * JSNum.fin false m).isNonNeg = true :=
  mul_nonNeg_of_positive hv (by simp [JSNum.isPositive, hm])

/-- `Math.ceil` is monotone on non-negative Numbers. -/
theorem ceil_le_ceil {a b : JSNum} (ha : a.isNonNeg = true) (hb : b.isNonNeg = true)
    (h : a.le b = true) : (Math.ceil a).le (Math.ceil b) = true := by
  match a, b, ha, hb, h with
  | .fin false m, .fin false n, _, _, h =>
    simp only [JSNum.le, signedMag, decide_eq_true_eq] at h
    simp only [Math.ceil, JSNum.le, signedMag, decide_eq_true_eq]
    have hmn : m ≤ n := by simpa using h
    have : (m + scale - 1) / scale * scale ≤ (n + scale - 1) / scale * scale :=
      Nat.mul_le_mul_right _ (Nat.div_le_div_right (by omega))
    simp only [Bool.false_eq_true, if_false]
    exact Int.ofNat_le.2 this
  | .fin false m, .inf false, _, _, _ => rfl
  | .inf false, .inf false, _, _, _ => rfl
  | .inf false, .fin false n, _, _, h => simp [JSNum.le] at h

theorem lit_eq_fin (a b : Nat) (h : roundMag (a * scale) (10 ^ b) < overflowBound) :
    lit a b = JSNum.fin false (roundMag (a * scale) (10 ^ b)) := by
  unfold lit ofMag
  rw [if_pos h]

/-! ## Validation and dispatch -/

theorem lit_zero : lit 0 0 = JSNum.fin false 0 := by decide!

theorem parseFloat_empty : parseFloat "" = JSNum.nan := by decide!

theorem isEmpty_iff (s : String) : s.isEmpty = true ↔ s = "" := by
  simp [String.isEmpty_iff]

/-- The validators reject exactly the dimensions the specification calls invalid. -/
theorem inputRejected_iff (value : String) :
    inputRejected value = true ↔ dimensionInvalid value := by
  unfold inputRejected dimensionInvalid
  rw [lit_zero]
  simp only [Bool.or_eq_true, isEmpty_iff]
  constructor
  · rintro ((h | h) | h)
    · exact Or.inl h
    · match hv : parseFloat value, h with
      | .fin s m, h =>
        simp only [hv, JSNum.le, signedMag, decide_eq_true_eq] at h
        rcases Nat.eq_zero_or_pos m with hm | hm
        · subst hm; exact Or.inr (Or.inr (Or.inl ⟨s, rfl⟩))
        · cases s
          · simp at h; omega
          · exact Or.inr (Or.inr (Or.inr (Or.inl ⟨m, hm, rfl⟩)))
      | .inf true, _ => exact Or.inr (Or.inr (Or.inr (Or.inr rfl)))
      | .inf false, h => simp [hv, JSNum.le] at h
      | .nan, _ => exact Or.inr (Or.inl rfl)
    · match hv : parseFloat value, h with
      | .nan, _ => exact Or.inr (Or.inl rfl)
  · rintro (h | h | ⟨s, h⟩ | ⟨m, _, h⟩ | h)
    · exact Or.inl (Or.inl h)
    · exact Or.inr (by rw [h]; rfl)
    · refine Or.inl (Or.inr ?_)
      rw [h]
      cases s <;> simp [JSNum.le, signedMag]
    · refine Or.inl (Or.inr ?_)
      rw [h]
      simp [JSNum.le, signedMag]
    · refine Or.inl (Or.inr ?_)
      rw [h]
      rfl

/-- `validateAllInputs` returns `true` exactly when none of the three inputs is rejected. -/
theorem validateAllInputs_snd (form : Form) :
    (validateAllInputs form).2 =
      (!inputRejected form.length && !inputRejected form.width &&
        !inputRejected form.height) := by
  unfold validateAllInputs
  simp only [List.foldl]
  cases inputRejected form.length <;> cases inputRejected form.width <;>
    cases inputRejected form.height <;> rfl

theorem outcome_of_invalid (form : Form) (h : (validateAllInputs form).2 = false) :
    (calculateMaterials form).outcome = .showError invalidInputMessage := by
  unfold calculateMaterials
  simp [h]

theorem outcome_of_valid (form : Form) (h : (validateAllInputs form).2 = true) :
    (calculateMaterials form).outcome =
      if form.projectType = "losa" then
        .displayResults (calculateLosa (parseFloat form.length) (parseFloat form.width)
          (parseFloat form.height))
      else if form.projectType = "muro" then
        .displayResults (calculateMuro (parseFloat form.length) (parseFloat form.width)
          (parseFloat form.height))
      else if form.projectType = "firme" then
        .displayResults (calculateFirme (parseFloat form.length) (parseFloat form.width)
          (parseFloat form.height))
      else if form.projectType = "columna" then
        .displayResults (calculateColumna (parseFloat form.length) (parseFloat form.width)
          (parseFloat form.height))
      else .showError unknownTypeMessage := by
  unfold calculateMaterials
  simp only [h, Bool.not_true, Bool.false_eq_true, if_false]
  split_ifs <;> rfl

theorem validateAllInputs_false_of_invalid (form : Form)
    (h : dimensionInvalid form.length ∨ dimensionInvalid form.width ∨
      dimensionInvalid form.height) : (validateAllInputs form).2 = false := by
  rw [validateAllInputs_snd]
  rcases h with h | h | h
  · rw [(inputRejected_iff _).2 h]; rfl
  · rw [(inputRejected_iff _).2 h]; simp
  · rw [(inputRejected_iff _).2 h]; simp

theorem validateAllInputs_true_of_valid (form : Form)
    (hl : ¬ dimensionInvalid form.length) (hw : ¬ dimensionInvalid form.width)
    (hh : ¬ dimensionInvalid form.height) : (validateAllInputs form).2 = true := by
  rw [validateAllInputs_snd]
  have e : ∀ v, ¬ dimensionInvalid v → inputRejected v = false := fun v hv => by
    cases hr : inputRejected v
    · rfl
    · exact absurd ((inputRejected_iff v).1 hr) hv
  rw [e _ hl, e _ hw, e _ hh]
  rfl

theorem not_invalid_of_isPositive {value : String}
    (h : (parseFloat value).isPositive = true) : ¬ dimensionInvalid value := by
  match hv : parseFloat value, h with
  | .fin false m, h =>
    have hm : 0 < m := by simpa [JSNum.isPositive] using h
    rintro (h' | h' | ⟨s, h'⟩ | ⟨k, _, h'⟩ | h')
    · rw [h', parseFloat_empty] at hv
      exact JSNum.noConfusion hv
    · rw [hv] at h'; exact JSNum.noConfusion h'
    · rw [hv] at h'
      injection h' with _ h0
      omega
    · rw [hv] at h'
      injection h' with hs _
      exact Bool.noConfusion hs
    · rw [hv] at h'; exact JSNum.noConfusion h'

/-! ## The estimates of the four calculators -/

/-- C1 fails as stated, the formulas being read on the numbers themselves: for the
positive inputs 10, 10, 0.14 the exact cement count is ceil(14*6.5) = 91 and the code
gives 92 sacos; for 1, 1, 0.15 the exact sand 0.075 rounds to 0.08 and the code gives
0.07 m³; for 1e10, 1e10, 1000 the exact concrete is 105000000000000000000000.00 m³
and the code writes 1.0499999999999999e+23 m³. -/
theorem calculateLosa_exact_counterexample :
    ((parseFloat "10").isPositive = true ∧ (parseFloat "0.14").isPositive = true ∧
      (exactLosa 10 10 0.14).lookup "Cemento" = some "91 sacos" ∧
      (calculateLosa (parseFloat "10") (parseFloat "10") (parseFloat "0.14")).lookup
        "Cemento" = some "92 sacos") ∧
    ((parseFloat "1").isPositive = true ∧ (parseFloat "0.15").isPositive = true ∧
      (exactLosa 1 1 0.15).lookup "Arena" = some "0.08 m³" ∧
      (calculateLosa (parseFloat "1") (parseFloat "1") (parseFloat "0.15")).lookup
        "Arena" = some "0.07 m³") ∧
    ((parseFloat "1e10").isPositive = true ∧ (parseFloat "1000").isPositive = true ∧
      (exactLosa 10000000000 10000000000 1000).lookup "Concreto" =
        some "105000000000000000000000.00 m³" ∧
      (calculateLosa (parseFloat "1e10") (parseFloat "1e10") (parseFloat "1000")).lookup
        "Concreto" = some "1.0499999999999999e+23 m³") := by
  decide!

/-- C1 as amended: for positive length, width and height, `calculateLosa` returns
exactly six entries in this order, computed in binary64 arithmetic: with `*` the
binary64 product, the decimal constants their nearest binary64 values,
volume = (length*width)*height and area = length*width,
Concreto = (volume*1.05).toFixed(2) m³, Cemento = Math.ceil(volume*6.5) sacos,
Arena = (volume*0.5).toFixed(2) m³, Grava = (volume*0.7).toFixed(2) m³,
Varilla = (area*8).toFixed(0) kg, Armex = (area*1.1).toFixed(2) m²; area and volume
are non-negative Numbers or Infinity, never NaN. -/
theorem calculateLosa_entries (length width height : JSNum)
    (hl : length.isPositive = true) (hw : width.isPositive = true)
    (hh : height.isPositive = true) :
    calculateLosa length width height =
      [ ("Concreto", (length * width * height * lit 105 2).toFixed 2 ++ " m³"),
        ("Cemento", (Math.ceil (length * width * height * lit 65 1)).toStr ++ " sacos"),
        ("Arena", (length * width * height * lit 5 1).toFixed 2 ++ " m³"),
        ("Grava", (length * width * height * lit 7 1).toFixed 2 ++ " m³"),
        ("Varilla", (length * width * lit 8 0).toFixed 0 ++ " kg"),
        ("Armex", (length * width * lit 11 1).toFixed 2 ++ " m²") ] ∧
    (length * width).isNonNeg = true ∧ (length * width * height).isNonNeg = true :=
  ⟨rfl, mul_nonNeg_of_positive (isNonNeg_of_isPositive hl) hw, volume_nonNeg hl hw hh⟩

/-- C1 as amended, scenario of the specification: the inputs 4, 3 and 0.12 are positive
and the slab estimate for them reads 1.51 m³, 10 sacos, 0.72 m³, 1.01 m³, 96 kg,
13.20 m². -/
theorem calculateLosa_entries_witness :
    (parseFloat "4").isPositive = true ∧ (parseFloat "3").isPositive = true ∧
    (parseFloat "0.12").isPositive = true ∧
    calculateLosa (parseFloat "4") (parseFloat "3") (parseFloat "0.12") =
      [ ("Concreto", "1.51 m³"), ("Cemento", "10 sacos"), ("Arena", "0.72 m³"),
        ("Grava", "1.01 m³"), ("Varilla", "96 kg"), ("Armex", "13.20 m²") ] ∧
    (parseFloat "4" * parseFloat "3").isNonNeg = true ∧
    (parseFloat "4" * parseFloat "3" * parseFloat "0.12").isNonNeg = true :=
  have h := calculateLosa_entries (parseFloat "4") (parseFloat "3") (parseFloat "0.12")
    (by decide!) (by decide!) (by decide!)
  ⟨by decide!, by decide!, by decide!, h.1.trans (by decide!), h.2.1, h.2.2⟩

/-- C2 fails as stated, the formulas being read on the numbers themselves: for the
positive length 25 and height 2.2 the exact block count is ceil(25*2.2*13) = 715 and
the code gives 716 piezas; for 187.5 and 1.1 the exact cement count is
ceil(187.5*1.1*0.02*8) = 33 and the code gives 34 sacos. -/
theorem calculateMuro_exact_counterexample :
    ((parseFloat "25").isPositive = true ∧ (parseFloat "2.2").isPositive = true ∧
      (exactMuro 25 1 2.2).lookup "Blocks" = some "715 piezas" ∧
      (calculateMuro (parseFloat "25") (parseFloat "1") (parseFloat "2.2")).lookup
        "Blocks" = some "716 piezas") ∧
    ((parseFloat "187.5").isPositive = true ∧ (parseFloat "1.1").isPositive = true ∧
      (exactMuro 187.5 1 1.1).lookup "Cemento" = some "33 sacos" ∧
      (calculateMuro (parseFloat "187.5") (parseFloat "1") (parseFloat "1.1")).lookup
        "Cemento" = some "34 sacos") := by
  decide!

/-- C2 as amended: for positive length and height and any width, `calculateMuro` does
not depend on the width, and its entries are, in this order and computed in binary64
arithmetic (`*` and `/` the binary64 product and quotient, the decimal constants their
nearest binary64 values, area = length*height, blocks = Math.ceil(area*13),
mortar = area*0.02): Blocks = blocks piezas, Cemento = Math.ceil(mortar*8) sacos,
Arena = (mortar*4).toFixed(2) m³, Varilla = ((length/3)*height*4).toFixed(0) kg and
Alambre recocido = Math.ceil(blocks/50) kg, from the ceiled block count; the area is a
non-negative Number or Infinity, never NaN. -/
theorem calculateMuro_entries (length width height : JSNum)
    (hl : length.isPositive = true) (hh : height.isPositive = true) :
    (∀ width' : JSNum, calculateMuro length width' height = calculateMuro length width height) ∧
    calculateMuro length width height =
      [ ("Blocks", (Math.ceil (length * height * lit 13 0)).toStr ++ " piezas"),
        ("Cemento", (Math.ceil (length * height * lit 2 2 * lit 8 0)).toStr ++ " sacos"),
        ("Arena", (length * height * lit 2 2 * lit 4 0).toFixed 2 ++ " m³"),
        ("Varilla", (length / lit 3 0 * height * lit 4 0).toFixed 0 ++ " kg"),
        ("Alambre recocido",
          (Math.ceil (Math.ceil (length * height * lit 13 0) / lit 50 0)).toStr ++ " kg") ] ∧
    (length * height).isNonNeg = true :=
  ⟨fun _ => rfl, rfl, mul_nonNeg_of_positive (isNonNeg_of_isPositive hl) hh⟩

/-- C2 as amended, scenario of the specification: length 5 and height 2.5 are positive
and the wall estimate reads 163 piezas, 2 sacos, 1.00 m³, 17 kg, 4 kg, for the width 1
as for the width 7. -/
theorem calculateMuro_entries_witness :
    (parseFloat "5").isPositive = true ∧ (parseFloat "2.5").isPositive = true ∧
    calculateMuro (parseFloat "5") (parseFloat "7") (parseFloat "2.5") =
      calculateMuro (parseFloat "5") (parseFloat "1") (parseFloat "2.5") ∧
    calculateMuro (parseFloat "5") (parseFloat "1") (parseFloat "2.5") =
      [ ("Blocks", "163 piezas"), ("Cemento", "2 sacos"), ("Arena", "1.00 m³"),
        ("Varilla", "17 kg"), ("Alambre recocido", "4 kg") ] ∧
    (parseFloat "5" * parseFloat "2.5").isNonNeg = true :=
  have h := calculateMuro_entries (parseFloat "5") (parseFloat "1") (parseFloat "2.5")
    (by decide!) (by decide!)
  ⟨by decide!, by decide!, h.1 (parseFloat "7"), h.2.1.trans (by decide!), h.2.2⟩

/-- C3 fails as stated, the formulas being read on the numbers themselves: for the
positive inputs 10, 10, 0.14 the exact cement count is ceil(14*7) = 98 and the code
gives 99 sacos; for 1e7, 1e7, 1e7 the exact concrete is 1050000000000000000000.00 m³
and the code writes 1.05e+21 m³. -/
theorem calculateColumna_exact_counterexample :
    ((parseFloat "10").isPositive = true ∧ (parseFloat "0.14").isPositive = true ∧
      (exactColumna 10 10 0.14).lookup "Cemento" = some "98 sacos" ∧
      (calculateColumna (parseFloat "10") (parseFloat "10") (parseFloat "0.14")).lookup
        "Cemento" = some "99 sacos") ∧
    ((parseFloat "1e7").isPositive = true ∧
      (exactColumna 10000000 10000000 10000000).lookup "Concreto" =
        some "1050000000000000000000.00 m³" ∧
      (calculateColumna (parseFloat "1e7") (parseFloat "1e7") (parseFloat "1e7")).lookup
        "Concreto" = some "1.05e+21 m³") := by
  decide!

/-- C3 as amended: for positive length, width and height, `calculateColumna` returns
exactly seven entries in this order, computed in binary64 arithmetic: with `*` and `/`
the binary64 product and quotient, the decimal constants their nearest binary64 values
and volume = (length*width)*height, Concreto = (volume*1.05).toFixed(2) m³,
Cemento = Math.ceil(volume*7) sacos, Arena = (volume*0.45).toFixed(2) m³,
Grava = (volume*0.65).toFixed(2) m³, Varilla longitudinal = (volume*120).toFixed(0) kg,
Estribos = (height*2).toFixed(0) kg, Alambre recocido = Math.ceil((volume*120)/100) kg
from the unrounded longitudinal steel; the volume is a non-negative Number or Infinity,
never NaN. -/
theorem calculateColumna_entries (length width height : JSNum)
    (hl : length.isPositive = true) (hw : width.isPositive = true)
    (hh : height.isPositive = true) :
    calculateColumna length width height =
      [ ("Concreto", (length * width * height * lit 105 2).toFixed 2 ++ " m³"),
        ("Cemento", (Math.ceil (length * width * height * lit 7 0)).toStr ++ " sacos"),
        ("Arena", (length * width * height * lit 45 2).toFixed 2 ++ " m³"),
        ("Grava", (length * width * height * lit 65 2).toFixed 2 ++ " m³"),
        ("Varilla longitudinal", (length * width * height * lit 120 0).toFixed 0 ++ " kg"),
        ("Estribos", (height * lit 2 0).toFixed 0 ++ " kg"),
        ("Alambre recocido",
          (Math.ceil (length * width * height * lit 120 0 / lit 100 0)).toStr ++ " kg") ] ∧
    (length * width * height).isNonNeg = true :=
  ⟨rfl, volume_nonNeg hl hw hh⟩

/-- C3 as amended, scenario of the specification: the inputs 0.3, 0.3 and 3 are
positive and the column estimate reads 0.28 m³, 2 sacos, 0.12 m³, 0.18 m³, 32 kg, 6 kg,
1 kg. -/
theorem calculateColumna_entries_witness :
    (parseFloat "0.3").isPositive = true ∧ (parseFloat "3").isPositive = true ∧
    calculateColumna (parseFloat "0.3") (parseFloat "0.3") (parseFloat "3") =
      [ ("Concreto", "0.28 m³"), ("Cemento", "2 sacos"), ("Arena", "0.12 m³"),
        ("Grava", "0.18 m³"), ("Varilla longitudinal", "32 kg"), ("Estribos", "6 kg"),
        ("Alambre recocido", "1 kg") ] ∧
    (parseFloat "0.3" * parseFloat "0.3" * parseFloat "3").isNonNeg = true :=
  have h := calculateColumna_entries (parseFloat "0.3") (parseFloat "0.3") (parseFloat "3")
    (by decide!) (by decide!) (by decide!)
  ⟨by decide!, by decide!, h.1.trans (by decide!), h.2⟩

/-- C4 fails as stated, the formulas being read on the numbers themselves: for the
positive inputs 10, 10, 0.14 the exact cement count is ceil(14*5.5) = 77 and the code
gives 78 sacos; for 1e200, 1e200, 1 the volume overflows and the code writes
Infinity m³, which is no rounding to 2 decimals of the finite volume times 1.05. -/
theorem calculateFirme_exact_counterexample :
    ((parseFloat "10").isPositive = true ∧ (parseFloat "0.14").isPositive = true ∧
      (exactFirme 10 10 0.14).lookup "Cemento" = some "77 sacos" ∧
      (calculateFirme (parseFloat "10") (parseFloat "10") (parseFloat "0.14")).lookup
        "Cemento" = some "78 sacos") ∧
    ((parseFloat "1e200").isPositive = true ∧ (parseFloat "1").isPositive = true ∧
      (calculateFirme (parseFloat "1e200") (parseFloat "1e200") (parseFloat "1")).lookup
        "Concreto" = some "Infinity m³") := by
  decide!

/-- C4 as amended: for positive length, width and height, `calculateFirme` returns
exactly five entries in this order, computed in binary64 arithmetic: with `*` the
binary64 product, the decimal constants their nearest binary64 values,
volume = (length*width)*height and area = length*width,
Concreto = (volume*1.05).toFixed(2) m³, Cemento = Math.ceil(volume*5.5) sacos,
Arena = (volume*0.6).toFixed(2) m³, Grava = (volume*0.8).toFixed(2) m³,
Polietileno = (area*1.1).toFixed(2) m²; area and volume are non-negative Numbers or
Infinity, never NaN. -/
theorem calculateFirme_entries (length width height : JSNum)
    (hl : length.isPositive = true) (hw : width.isPositive = true)
    (hh : height.isPositive = true) :
    calculateFirme length width height =
      [ ("Concreto", (length * width * height * lit 105 2).toFixed 2 ++ " m³"),
        ("Cemento", (Math.ceil (length * width * height * lit 55 1)).toStr ++ " sacos"),
        ("Arena", (length * width * height * lit 6 1).toFixed 2 ++ " m³"),
        ("Grava", (length * width * height * lit 8 1).toFixed 2 ++ " m³"),
        ("Polietileno", (length * width * lit 11 1).toFixed 2 ++ " m²") ] ∧
    (length * width).isNonNeg = true ∧ (length * width * height).isNonNeg = true :=
  ⟨rfl, mul_nonNeg_of_positive (isNonNeg_of_isPositive hl) hw, volume_nonNeg hl hw hh⟩

/-- C4 as amended, at the inputs 4, 3 and 0.1, which are positive: the floor estimate
reads 1.26 m³, 7 sacos, 0.72 m³, 0.96 m³, 13.20 m². -/
theorem calculateFirme_entries_witness :
    (parseFloat "4").isPositive = true ∧ (parseFloat "3").isPositive = true ∧
    (parseFloat "0.1").isPositive = true ∧
    calculateFirme (parseFloat "4") (parseFloat "3") (parseFloat "0.1") =
      [ ("Concreto", "1.26 m³"), ("Cemento", "7 sacos"), ("Arena", "0.72 m³"),
        ("Grava", "0.96 m³"), ("Polietileno", "13.20 m²") ] ∧
    (parseFloat "4" * parseFloat "3").isNonNeg = true ∧
    (parseFloat "4" * parseFloat "3" * parseFloat "0.1").isNonNeg = true :=
  have h := calculateFirme_entries (parseFloat "4") (parseFloat "3") (parseFloat "0.1")
    (by decide!) (by decide!) (by decide!)
  ⟨by decide!, by decide!, by decide!, h.1.trans (by decide!), h.2.1, h.2.2⟩

/-- C5 fails as stated: at length 5 and height 2.5 the mortar is 0.25 m³, yet the wall
estimate has five entries, not six, and none of them carries the value 0.25 m³. -/
theorem calculateMuro_mortar_counterexample :
    (parseFloat "5" * parseFloat "2.5" * lit 2 2).toFixed 2 ++ " m³" = "0.25 m³" ∧
    (calculateMuro (parseFloat "5") (parseFloat "1") (parseFloat "2.5")).length = 5 ∧
    ∀ entry ∈ calculateMuro (parseFloat "5") (parseFloat "1") (parseFloat "2.5"),
      entry.2 ≠ "0.25 m³" := by
  decide!

/-- C5 as amended: for positive length and height the wall estimate has exactly the
five labels Blocks, Cemento, Arena, Varilla, Alambre recocido, with Cemento directly
after Blocks and no mortar entry; the mortar volume area*0.02 is an intermediate that
only enters Cemento = ceil(mortar*8) and Arena = (mortar*4).toFixed(2). -/
theorem calculateMuro_mortar_intermediate (length width height : JSNum)
    (_hl : length.isPositive = true) (_hh : height.isPositive = true) :
    (calculateMuro length width height).map Prod.fst =
      ["Blocks", "Cemento", "Arena", "Varilla", "Alambre recocido"] ∧
    (calculateMuro length width height).lookup "Cemento" =
      some ((Math.ceil (length * height * lit 2 2 * lit 8 0)).toStr ++ " sacos") ∧
    (calculateMuro length width height).lookup "Arena" =
      some ((length * height * lit 2 2 * lit 4 0).toFixed 2 ++ " m³") := by
  refine ⟨rfl, ?_, ?_⟩ <;> simp [calculateMuro, List.lookup]

/-- C5 as amended, at length 5 and height 2.5 (mortar 0.25 m³): five labels, cement
2 sacos, sand 1.00 m³. -/
theorem calculateMuro_mortar_intermediate_witness :
    (parseFloat "5").isPositive = true ∧ (parseFloat "2.5").isPositive = true ∧
    (calculateMuro (parseFloat "5") (parseFloat "1") (parseFloat "2.5")).map Prod.fst =
      ["Blocks", "Cemento", "Arena", "Varilla", "Alambre recocido"] ∧
    (calculateMuro (parseFloat "5") (parseFloat "1") (parseFloat "2.5")).lookup "Cemento" =
      some "2 sacos" ∧
    (calculateMuro (parseFloat "5") (parseFloat "1") (parseFloat "2.5")).lookup "Arena" =
      some "1.00 m³" :=
  have h := calculateMuro_mortar_intermediate (parseFloat "5") (parseFloat "1")
    (parseFloat "2.5") (by decide!) (by decide!)
  ⟨by decide!, by decide!, h.1, h.2.1.trans (by decide!), h.2.2.trans (by decide!)⟩

/-! ## Validation, dispatch and the cement order -/

/-- C6: whatever the project type, when at least one of length, width, height is empty
or reads as NaN, zero or a negative Number, `calculateMaterials` ends with the
invalid-input error; no calculator result is produced or displayed. -/
theorem calculateMaterials_invalid_input (form : Form)
    (h : dimensionInvalid form.length ∨ dimensionInvalid form.width ∨
      dimensionInvalid form.height) :
    (calculateMaterials form).outcome = .showError invalidInputMessage ∧
    ∀ materials : Materials, (calculateMaterials form).outcome ≠ .displayResults materials := by
  have e := outcome_of_invalid form (validateAllInputs_false_of_invalid form h)
  refine ⟨e, fun materials hm => ?_⟩
  rw [e] at hm
  exact Outcome.noConfusion hm

/-- C6 at a slab form whose width is zero: the invalid-input error is shown. -/
theorem calculateMaterials_invalid_input_witness :
    dimensionInvalid "0" ∧
    (calculateMaterials ⟨"losa", "4", "0", "0.12"⟩).outcome = .showError invalidInputMessage :=
  have h : dimensionInvalid "0" := Or.inr (Or.inr (Or.inl ⟨false, by decide!⟩))
  ⟨h, (calculateMaterials_invalid_input ⟨"losa", "4", "0", "0.12"⟩ (Or.inr (Or.inl h))).1⟩

/-- C7 fails as stated: with the unrecognised type "techo" and a zero length the error
shown is the invalid-input one, not the unknown-project-type one. -/
theorem calculateMaterials_unknown_type_counterexample :
    "techo" ∉ recognizedTypes ∧
    (calculateMaterials ⟨"techo", "0", "3", "2"⟩).outcome = .showError invalidInputMessage ∧
    (calculateMaterials ⟨"techo", "0", "3", "2"⟩).outcome ≠ .showError unknownTypeMessage := by
  decide!

/-- C7 as amended: for a project type outside the four recognised selectors,
`calculateMaterials` ends with the unknown-project-type error when all three dimensions
pass validation, and with the invalid-input error when one of them does not. -/
theorem calculateMaterials_unknown_type (form : Form)
    (ht : form.projectType ∉ recognizedTypes) :
    (¬ dimensionInvalid form.length → ¬ dimensionInvalid form.width →
      ¬ dimensionInvalid form.height →
      (calculateMaterials form).outcome = .showError unknownTypeMessage) ∧
    (dimensionInvalid form.length ∨ dimensionInvalid form.width ∨
      dimensionInvalid form.height →
      (calculateMaterials form).outcome = .showError invalidInputMessage) := by
  simp only [recognizedTypes, List.mem_cons, List.mem_singleton, List.not_mem_nil,
    or_false, not_or] at ht
  obtain ⟨h₁, h₂, h₃, h₄⟩ := ht
  refine ⟨fun hl hw hh => ?_, fun h =>
    outcome_of_invalid form (validateAllInputs_false_of_invalid form h)⟩
  rw [outcome_of_valid form (validateAllInputs_true_of_valid form hl hw hh)]
  rw [if_neg h₁, if_neg h₂, if_neg h₃, if_neg h₄]

/-- C7 as amended, at the type "techo": valid dimensions give the unknown-type error. -/
theorem calculateMaterials_unknown_type_witness :
    "techo" ∉ recognizedTypes ∧
    (calculateMaterials ⟨"techo", "4", "3", "2"⟩).outcome = .showError unknownTypeMessage :=
  ⟨by decide,
    (calculateMaterials_unknown_type ⟨"techo", "4", "3", "2"⟩ (by decide)).1
      (not_invalid_of_isPositive (by decide!)) (not_invalid_of_isPositive (by decide!))
      (not_invalid_of_isPositive (by decide!))⟩

/-- C8 fails as stated: the text "Infinity" reads as positive infinity, passes
validation, and the slab calculator runs and its result is displayed. -/
theorem calculateMaterials_infinity_counterexample :
    parseFloat "Infinity" = JSNum.inf false ∧
    (calculateMaterials ⟨"losa", "Infinity", "1", "1"⟩).outcome =
      .displayResults
        [ ("Concreto", "Infinity m³"), ("Cemento", "Infinity sacos"),
          ("Arena", "Infinity m³"), ("Grava", "Infinity m³"), ("Varilla", "Infinity kg"),
          ("Armex", "Infinity m²") ] := by
  decide!

/-- C8 as amended: whatever the project type, when one of length, width, height reads as
NaN or as negative infinity, `calculateMaterials` ends with the invalid-input error and
produces no result; a dimension that reads as positive infinity is not rejected by the
validation. -/
theorem calculateMaterials_non_finite (form : Form)
    (h : (parseFloat form.length = .nan ∨ parseFloat form.length = .inf true) ∨
      (parseFloat form.width = .nan ∨ parseFloat form.width = .inf true) ∨
      (parseFloat form.height = .nan ∨ parseFloat form.height = .inf true)) :
    ((calculateMaterials form).outcome = .showError invalidInputMessage ∧
      ∀ materials : Materials,
        (calculateMaterials form).outcome ≠ .displayResults materials) ∧
    ∀ value : String, parseFloat value = .inf false → inputRejected value = false := by
  have lift : ∀ v, (parseFloat v = .nan ∨ parseFloat v = .inf true) → dimensionInvalid v :=
    fun v hv => hv.elim (fun e => Or.inr (Or.inl e))
      (fun e => Or.inr (Or.inr (Or.inr (Or.inr e))))
  have hinv : dimensionInvalid form.length ∨ dimensionInvalid form.width ∨
      dimensionInvalid form.height :=
    h.elim (fun e => Or.inl (lift _ e))
      (fun e => e.elim (fun e => Or.inr (Or.inl (lift _ e)))
        (fun e => Or.inr (Or.inr (lift _ e))))
  have e := outcome_of_invalid form (validateAllInputs_false_of_invalid form hinv)
  refine ⟨⟨e, fun materials hm => ?_⟩, fun value hv => ?_⟩
  · rw [e] at hm
    exact Outcome.noConfusion hm
  · cases hr : inputRejected value
    · rfl
    · rcases (inputRejected_iff value).1 hr with h' | h' | ⟨s, h'⟩ | ⟨m, _, h'⟩ | h'
      · rw [h', parseFloat_empty] at hv; exact JSNum.noConfusion hv
      · rw [hv] at h'; exact JSNum.noConfusion h'
      · rw [hv] at h'; exact JSNum.noConfusion h'
      · rw [hv] at h'; exact JSNum.noConfusion h'
      · rw [hv] at h'
        injection h' with hs
        exact Bool.noConfusion hs

/-- C8 as amended, at a height that reads as negative infinity: the invalid-input error. -/
theorem calculateMaterials_non_finite_witness :
    parseFloat "-Infinity" = JSNum.inf true ∧
    (calculateMaterials ⟨"muro", "5", "1", "-Infinity"⟩).outcome =
      .showError invalidInputMessage :=
  ⟨by decide!,
    (calculateMaterials_non_finite ⟨"muro", "5", "1", "-Infinity"⟩
      (Or.inr (Or.inr (Or.inr (by decide!))))).1.1⟩

/-- C9: for a recognised project type and positive finite length, width and height,
`calculateMaterials` ends with `displayResults` (neither error is raised), and the
displayed mapping is non-empty, has pairwise distinct labels, and its label sequence is
the one fixed for the project type, independent of the dimensions. -/
theorem calculateMaterials_succeeds (form : Form)
    (ht : form.projectType ∈ recognizedTypes)
    (hl : (parseFloat form.length).isPositive = true)
    (hw : (parseFloat form.width).isPositive = true)
    (hh : (parseFloat form.height).isPositive = true) :
    ∃ materials : Materials,
      (calculateMaterials form).outcome = .displayResults materials ∧
      materials ≠ [] ∧ (materials.map Prod.fst).Nodup ∧
      materials.map Prod.fst = labelsOf form.projectType := by
  have hv := validateAllInputs_true_of_valid form (not_invalid_of_isPositive hl)
    (not_invalid_of_isPositive hw) (not_invalid_of_isPositive hh)
  have ho := outcome_of_valid form hv
  simp only [recognizedTypes, List.mem_cons, List.mem_singleton, List.not_mem_nil,
    or_false] at ht
  rcases ht with e | e | e | e
  · rw [e] at ho
    refine ⟨_, ho, ?_, ?_, ?_⟩
    · simp [calculateLosa]
    · simp only [calculateLosa, List.map]; decide
    · rw [e]; rfl
  · rw [e] at ho
    refine ⟨_, ho, ?_, ?_, ?_⟩
    · simp [calculateMuro]
    · simp only [calculateMuro, List.map]; decide
    · rw [e]; rfl
  · rw [e] at ho
    refine ⟨_, ho, ?_, ?_, ?_⟩
    · simp [calculateFirme]
    · simp only [calculateFirme, List.map]; decide
    · rw [e]; rfl
  · rw [e] at ho
    refine ⟨_, ho, ?_, ?_, ?_⟩
    · simp [calculateColumna]
    · simp only [calculateColumna, List.map]; decide
    · rw [e]; rfl

/-- C9 at the column scenario 0.3, 0.3, 3: the result is displayed. -/
theorem calculateMaterials_succeeds_witness :
    "columna" ∈ recognizedTypes ∧ (parseFloat "0.3").isPositive = true ∧
    (parseFloat "3").isPositive = true ∧
    ∃ materials : Materials,
      (calculateMaterials ⟨"columna", "0.3", "0.3", "3"⟩).outcome =
        .displayResults materials ∧
      materials ≠ [] ∧ (materials.map Prod.fst).Nodup ∧
      materials.map Prod.fst = labelsOf "columna" :=
  ⟨by decide, by decide!, by decide!,
    calculateMaterials_succeeds ⟨"columna", "0.3", "0.3", "3"⟩ (by decide) (by decide!)
      (by decide!) (by decide!)⟩

theorem lit_55_1 : lit 55 1 = JSNum.fin false (roundMag (55 * scale) (10 ^ 1)) :=
  lit_eq_fin 55 1 (by decide!)

theorem lit_65_1 : lit 65 1 = JSNum.fin false (roundMag (65 * scale) (10 ^ 1)) :=
  lit_eq_fin 65 1 (by decide!)

theorem lit_7_0 : lit 7 0 = JSNum.fin false (roundMag (7 * scale) (10 ^ 0)) :=
  lit_eq_fin 7 0 (by decide!)

/-- C10: for positive length, width and height the Cemento entries of the floor, slab
and column estimates carry the counts ceil(volume*5.5), ceil(volume*6.5) and
ceil(volume*7), and these counts are ordered floor <= slab <= column. -/
theorem cement_floor_le_slab_le_column (length width height : JSNum)
    (hl : length.isPositive = true) (hw : width.isPositive = true)
    (hh : height.isPositive = true) :
    (calculateFirme length width height).lookup "Cemento" =
      some ((Math.ceil (length * width * height * lit 55 1)).toStr ++ " sacos") ∧
    (calculateLosa length width height).lookup "Cemento" =
      some ((Math.ceil (length * width * height * lit 65 1)).toStr ++ " sacos") ∧
    (calculateColumna length width height).lookup "Cemento" =
      some ((Math.ceil (length * width * height * lit 7 0)).toStr ++ " sacos") ∧
    (Math.ceil (length * width * height * lit 55 1)).le
      (Math.ceil (length * width * height * lit 65 1)) = true ∧
    (Math.ceil (length * width * height * lit 65 1)).le
      (Math.ceil (length * width * height * lit 7 0)) = true := by
  have hv := volume_nonNeg hl hw hh
  have p55 : 0 < roundMag (55 * scale) (10 ^ 1) := by decide!
  have p65 : 0 < roundMag (65 * scale) (10 ^ 1) := by decide!
  have p7 : 0 < roundMag (7 * scale) (10 ^ 0) := by decide!
  have h₁ : roundMag (55 * scale) (10 ^ 1) ≤ roundMag (65 * scale) (10 ^ 1) :=
    roundMag_mono (Nat.mul_le_mul_right _ (by decide))
  have h₂ : roundMag (65 * scale) (10 ^ 1) ≤ roundMag (7 * scale) (10 ^ 0) := by decide!
  refine ⟨?_, ?_, ?_, ?_, ?_⟩
  · simp [calculateFirme, List.lookup]
  · simp [calculateLosa, List.lookup]
  · simp [calculateColumna, List.lookup]
  · rw [lit_55_1, lit_65_1]
    exact ceil_le_ceil (mul_fin_nonNeg hv p55) (mul_fin_nonNeg hv p65)
      (mul_le_mul_of_nonNeg hv p55 h₁)
  · rw [lit_65_1, lit_7_0]
    exact ceil_le_ceil (mul_fin_nonNeg hv p65) (mul_fin_nonNeg hv p7)
      (mul_le_mul_of_nonNeg hv p65 h₂)

/-- C10 at the inputs 4, 3 and 0.12: the cement counts are 8, 10 and 11 sacos. -/
theorem cement_floor_le_slab_le_column_witness :
    (parseFloat "4").isPositive = true ∧ (parseFloat "3").isPositive = true ∧
    (parseFloat "0.12").isPositive = true ∧
    (calculateFirme (parseFloat "4") (parseFloat "3") (parseFloat "0.12")).lookup "Cemento" =
      some "8 sacos" ∧
    (calculateLosa (parseFloat "4") (parseFloat "3") (parseFloat "0.12")).lookup "Cemento" =
      some "10 sacos" ∧
    (calculateColumna (parseFloat "4") (parseFloat "3") (parseFloat "0.12")).lookup "Cemento" =
      some "11 sacos" ∧
    (Math.ceil (parseFloat "4" * parseFloat "3" * parseFloat "0.12" * lit 55 1)).le
      (Math.ceil (parseFloat "4" * parseFloat "3" * parseFloat "0.12" * lit 65 1)) = true ∧
    (Math.ceil (parseFloat "4" * parseFloat "3" * parseFloat "0.12" * lit 65 1)).le
      (Math.ceil (parseFloat "4" * parseFloat "3" * parseFloat "0.12" * lit 7 0)) = true :=
  have h := cement_floor_le_slab_le_column (parseFloat "4") (parseFloat "3")
    (parseFloat "0.12") (by decide!) (by decide!) (by decide!)
  ⟨by decide!, by decide!, by decide!, h.1.trans (by decide!), h.2.1.trans (by decide!),
    h.2.2.1.trans (by decide!), h.2.2.2.1, h.2.2.2.2⟩

end Materiales
